import Mathlib

/-!
Verification of the Feishu/Lark image-upload script
(`internal/builtin_skills/feishu-upload-image/scripts/upload_image.py`).

The script is embedded shallowly: each Python function becomes a Lean
function over explicit state.  Network and filesystem effects are modelled
by an `Env` record of response functions, and every pipeline function
additionally returns the ordered list of network calls it issued, so that
claims about "exactly one network call" or "the upload POST is never
issued" become statements about that trace.  Machine strings and JSON
values are modelled with `String` and `Option` fields (an absent JSON key
is `none`, matching Python's `dict.get`).
-/

set_option linter.unusedVariables false

namespace FeishuUpload

/-- Python truthiness of an optional string (`if x:` in the source):
`None` and the empty string are falsy, every other string is truthy. -/
def pyTruthy : Option String → Bool
  | none => false
  | some s => s != ""

/-- Rendering of an optional string inside a Python f-string
(as with `data.get('msg')`): `None` prints as the text "None". -/
def pyShow : Option String → String
  | none => "None"
  | some s => s

/-- Application credentials (`app_id`, `app_secret`). -/
structure Credentials where
  app_id : String
  app_secret : String
deriving DecidableEq

/-- JSON body returned by the auth endpoint, as the script reads it:
`data.get("code")`, `data.get("msg")`, `data.get("app_access_token")`.
An absent key is `none`. -/
structure AuthResponse where
  code : Option Int
  msg : Option String
  app_access_token : Option String
deriving DecidableEq

/-- The nested `data` object of the upload response; `image_key` may be
absent. -/
structure UploadData where
  image_key : Option String
deriving DecidableEq

/-- JSON body returned by the upload endpoint: `{code, msg, data: {image_key}}`
where any field may be absent. -/
structure UploadResponse where
  code : Option Int
  msg : Option String
  data : Option UploadData
deriving DecidableEq

/-- The failure taxonomy of the script, one constructor per `raise` site
(plus the exceptions the libraries raise for it).  The carried string is
`str(e)` as the boundary prints it. -/
inductive Err where
  /-- `RuntimeError(f"Failed to get access token: {msg}")` in `get_access_token`. -/
  | authError (msg : String)
  /-- `ValueError("Image size exceeds 10MB limit")` in `upload_from_reader`. -/
  | sizeLimitExceeded
  /-- `FileNotFoundError` raised by `open(file_path, "rb")`. -/
  | fileNotFound (path : String)
  /-- `requests.HTTPError` raised by `response.raise_for_status()`. -/
  | httpError (status : Nat) (url : String)
  /-- `binascii.Error` (or ASCII-encoding `ValueError`) raised by `base64.b64decode`. -/
  | decodeError (msg : String)
  /-- `RuntimeError(f"Upload failed: {msg}")` in `upload_from_reader`. -/
  | uploadError (msg : String)
  /-- `KeyError` raised by `data["data"]["image_key"]` when a key is absent. -/
  | keyError (key : String)
deriving DecidableEq

/-- One outbound network call, in the order the script issues them. -/
inductive NetCall where
  /-- `requests.post` to the auth endpoint with the credential JSON body. -/
  | authPost (creds : Credentials)
  /-- `requests.get(url)` fetching a remote image. -/
  | getUrl (url : String)
  /-- `requests.post` of the multipart body to the upload endpoint. -/
  | uploadPost
deriving DecidableEq

/-- The external world the script talks to: the auth endpoint's response to
given credentials, the body and status a GET of a URL returns, the upload
endpoint's response, and the local filesystem (`none` = file missing). -/
structure Env where
  anet : Credentials → AuthResponse
  urlNet : String → Nat × List Nat
  uresp : UploadResponse
  fs : String → Option (List Nat)

/-- `API_BASE_URL` class constant. -/
def API_BASE_URL : String := "https://open.feishu.cn"

/-- `UPLOAD_ENDPOINT` class constant. -/
def UPLOAD_ENDPOINT : String := "/open-apis/im/v1/images"

/-- The 10 MB limit of `upload_from_reader`: `10 * 1024 * 1024` bytes. -/
def SIZE_LIMIT : Nat := 10 * 1024 * 1024

/-- `FeishuImageUploader.get_access_token`.  The cached `_access_token`
field is the `tok` argument (initially `none`); the result is the returned
value, the new cache field, and the network calls issued.  The cache test
is Python truthiness (`if self._access_token:`), and on success the script
stores `data.get("app_access_token")`, which may itself be absent. -/
def get_access_token (E : Env) (creds : Credentials) (tok : Option String) :
    Except Err (Option String) × Option String × List NetCall :=
  if pyTruthy tok then (.ok tok, tok, [])
  else
    let d := E.anet creds
    if d.code ≠ some 0 then
      (.error (.authError ("Failed to get access token: " ++ pyShow d.msg)), tok,
        [.authPost creds])
    else
      (.ok d.app_access_token, d.app_access_token, [.authPost creds])

/-- `FeishuImageUploader.upload_from_reader`: size check on the resolved
buffer, then the bearer token (fetched lazily through `get_access_token`),
then the multipart POST, then parsing of the JSON response.  `data["data"]`
and `["image_key"]` are hard indexing, so an absent key is a `KeyError`. -/
def upload_from_reader (E : Env) (creds : Credentials) (buf : List Nat)
    (image_type : String) (tok : Option String) :
    Except Err String × Option String × List NetCall :=
  if buf.length > SIZE_LIMIT then
    (.error .sizeLimitExceeded, tok, [])
  else
    match get_access_token E creds tok with
    | (.error e, t, ev) => (.error e, t, ev)
    | (.ok _tokVal, t, ev) =>
      let d := E.uresp
      if d.code ≠ some 0 then
        (.error (.uploadError ("Upload failed: " ++ pyShow d.msg)), t, ev ++ [.uploadPost])
      else
        match d.data with
        | none => (.error (.keyError "data"), t, ev ++ [.uploadPost])
        | some dd =>
          match dd.image_key with
          | none => (.error (.keyError "image_key"), t, ev ++ [.uploadPost])
          | some k => (.ok k, t, ev ++ [.uploadPost])

/-- `FeishuImageUploader.upload_from_file`: `open(file_path, "rb")` then
`upload_from_reader`; a missing file raises `FileNotFoundError`. -/
def upload_from_file (E : Env) (creds : Credentials) (path : String)
    (image_type : String) (tok : Option String) :
    Except Err String × Option String × List NetCall :=
  match E.fs path with
  | none => (.error (.fileNotFound path), tok, [])
  | some buf => upload_from_reader E creds buf image_type tok

/-- `FeishuImageUploader.upload_from_url`: `requests.get(url)` then
`response.raise_for_status()` (raises for HTTP 4xx/5xx), then
`upload_from_reader` on the body. -/
def upload_from_url (E : Env) (creds : Credentials) (url : String)
    (image_type : String) (tok : Option String) :
    Except Err String × Option String × List NetCall :=
  if 400 ≤ (E.urlNet url).1 ∧ (E.urlNet url).1 < 600 then
    (.error (.httpError (E.urlNet url).1 url), tok, [.getUrl url])
  else
    ((upload_from_reader E creds (E.urlNet url).2 image_type tok).1,
     (upload_from_reader E creds (E.urlNet url).2 image_type tok).2.1,
     .getUrl url :: (upload_from_reader E creds (E.urlNet url).2 image_type tok).2.2)

/-- Value of one character in the standard base64 alphabet, `none` for a
character outside it (including the pad character). -/
def b64Val (c : Char) : Option Nat :=
  if 65 ≤ c.toNat ∧ c.toNat ≤ 90 then some (c.toNat - 65)
  else if 97 ≤ c.toNat ∧ c.toNat ≤ 122 then some (c.toNat - 97 + 26)
  else if 48 ≤ c.toNat ∧ c.toNat ≤ 57 then some (c.toNat - 48 + 52)
  else if c = '+' then some 62
  else if c = '/' then some 63
  else none

/-- CPython's `binascii.a2b_base64` with `strict_mode=False`, which is what
`base64.b64decode(data)` calls: characters outside the alphabet are
silently skipped; a pad character with at least two data characters in the
current quad that completes the quad ends the input; bytes are emitted as
soon as available; at the end of input a quad position of 1 is an invalid
length and a quad position of 2 or 3 is incorrect padding.  `quadPos` is
the position inside the current 6-bit quad, `leftchar` the pending bits,
`pads` the pads seen in the current quad, `nData` the count of data
characters (used only in the error message), `acc` the output bytes in
reverse. -/
def a2b (chars : List Char) (quadPos leftchar pads nData : Nat)
    (acc : List Nat) : Except String (List Nat) :=
  match chars with
  | [] =>
    if quadPos = 0 then .ok acc.reverse
    else if quadPos = 1 then
      .error ("Invalid base64-encoded string: number of data characters (" ++
        toString nData ++ ") cannot be 1 more than a multiple of 4")
    else .error "Incorrect padding"
  | c :: rest =>
    if c = '=' then
      if 2 ≤ quadPos then
        if 4 ≤ quadPos + (pads + 1) then .ok acc.reverse
        else a2b rest quadPos leftchar (pads + 1) nData acc
      else a2b rest quadPos leftchar pads nData acc
    else
      match b64Val c with
      | none => a2b rest quadPos leftchar pads nData acc
      | some v =>
        match quadPos with
        | 0 => a2b rest 1 v 0 (nData + 1) acc
        | 1 => a2b rest 2 (v % 16) 0 (nData + 1) ((leftchar * 4 + v / 16) :: acc)
        | 2 => a2b rest 3 (v % 4) 0 (nData + 1) ((leftchar * 16 + v / 4) :: acc)
        | _ => a2b rest 0 0 0 (nData + 1) ((leftchar * 64 + v) :: acc)

/-- `base64.b64decode` on a `str` argument: the string is first encoded as
ASCII (a non-ASCII character raises), then decoded by `a2b` in non-strict
mode. -/
def b64decode (s : String) : Except String (List Nat) :=
  if s.data.all (fun c => c.toNat < 128) then a2b s.data 0 0 0 0 []
  else .error "string argument should contain only ASCII characters"

/-- `FeishuImageUploader.upload_from_base64`: `base64.b64decode(data)` then
`upload_from_reader` on the decoded bytes. -/
def upload_from_base64 (E : Env) (creds : Credentials) (s : String)
    (image_type : String) (tok : Option String) :
    Except Err String × Option String × List NetCall :=
  match b64decode s with
  | .error m => (.error (.decodeError m), tok, [])
  | .ok buf => upload_from_reader E creds buf image_type tok

/-- The `channels.feishu` section of `~/.goclaw/config.json`, as read with
`config.get("channels", {}).get("feishu", {})`: each field is `none` when
the key (or any enclosing section) is absent. -/
structure FeishuSection where
  app_id : Option String
  app_secret : Option String
deriving DecidableEq

/-- The environment-variable fallback of `load_config`:
`os.environ.get("FEISHU_APP_ID")` / `os.environ.get("FEISHU_APP_SECRET")`,
then `if not app_id or not app_secret:` print remediation and `sys.exit(1)`
(the `ConfigError` of the spec, modelled as `.error ()`). -/
def load_env (envId envSecret : Option String) : Except Unit (String × String) :=
  if !(pyTruthy envId) || !(pyTruthy envSecret) then .error ()
  else .ok (envId.getD "", envSecret.getD "")

/-- `load_config`: when the config file exists, its `channels.feishu`
values are returned when both are truthy (`if app_id and app_secret:`);
otherwise the environment variables are consulted. -/
def load_config (cfg : Option FeishuSection) (envId envSecret : Option String) :
    Except Unit (String × String) :=
  match cfg with
  | some sec =>
    if pyTruthy sec.app_id && pyTruthy sec.app_secret then
      .ok (sec.app_id.getD "", sec.app_secret.getD "")
    else load_env envId envSecret
  | none => load_env envId envSecret

/-- Whether the config-file layer wins in `load_config` (both values truthy). -/
def cfgTruthy : Option FeishuSection → Bool
  | some sec => pyTruthy sec.app_id && pyTruthy sec.app_secret
  | none => false

/-- The ten lines `load_config` prints (to standard output — the plain
`print`, not `print(..., file=sys.stderr)`) before `sys.exit(1)` when no
credential pair is found. -/
def configErrorLines : List String :=
  ["Error: Feishu credentials not found.",
   "Configure in ~/.goclaw/config.json under channels.feishu:",
   "  \x7b",
   "    \"channels\": \x7b",
   "      \"feishu\": \x7b",
   "        \"app_id\": \"your_app_id\",",
   "        \"app_secret\": \"your_app_secret\"",
   "      \x7d",
   "    \x7d",
   "  \x7d"]

/-- The parsed command-line arguments used by `main` after
`image_type = args.image_type or args.type` has been resolved. -/
structure Args where
  input : Option String
  url : Option String
  base64 : Bool
  image_type : String
  output : String
  quiet : Bool
deriving DecidableEq

/-- Which upload path `main`'s `if args.url / elif args.base64 /
elif args.input / else` chain selects. -/
inductive Route where
  | viaUrl (u : String)
  | viaBase64 (s : String)
  | viaFile (p : String)
  /-- `--base64` given but no positional input: error message and `sys.exit(1)`. -/
  | missingB64Input
  /-- no input at all: `parser.print_help()` and `sys.exit(1)`. -/
  | noInput
deriving DecidableEq

/-- Character-list core of Python's `str.startswith`. -/
def charsStartWith : List Char → List Char → Bool
  | [], _ => true
  | _ :: _, [] => false
  | p :: ps, c :: cs => p == c && charsStartWith ps cs

/-- Python's `s.startswith(pre)`. -/
def startswith (s pre : String) : Bool := charsStartWith pre.data s.data

/-- The dispatch of `main`, with Python truthiness on `args.url` and
`args.input`; an untagged input is a URL exactly when
`args.input.startswith(("http://", "https://"))`. -/
def route (a : Args) : Route :=
  if pyTruthy a.url then .viaUrl (a.url.getD "")
  else if a.base64 then
    if pyTruthy a.input then .viaBase64 (a.input.getD "") else .missingB64Input
  else if pyTruthy a.input then
    if startswith (a.input.getD "") "http://" || startswith (a.input.getD "") "https://" then
      .viaUrl (a.input.getD "")
    else .viaFile (a.input.getD "")
  else .noInput

/-- `str(e)` for each member of the taxonomy, as interpolated into
`f"Error: {e}"` at the boundary.  The text of `httpError` abbreviates the
reason phrase `requests` inserts; no claim depends on it. -/
def errStr : Err → String
  | .authError m => m
  | .sizeLimitExceeded => "Image size exceeds 10MB limit"
  | .fileNotFound p => "[Errno 2] No such file or directory: " ++ "\x27" ++ p ++ "\x27"
  | .httpError st u => toString st ++ " Error for url: " ++ u
  | .decodeError m => m
  | .uploadError m => m
  | .keyError k => "\x27" ++ k ++ "\x27"

/-- `json.dumps({"code": 0, "data": {"image_key": image_key}}, ensure_ascii=False)`. -/
def jsonSuccess (key : String) : String :=
  "\x7b\"code\": 0, \"data\": \x7b\"image_key\": \"" ++ key ++ "\"\x7d\x7d"

/-- `json.dumps({"code": -1, "msg": str(e)}, ensure_ascii=False)`. -/
def jsonFailure (msg : String) : String :=
  "\x7b\"code\": -1, \"msg\": \"" ++ msg ++ "\"\x7d"

/-- Stand-in for the text `parser.print_help()` writes; its exact content
is argparse's and out of scope. -/
def helpText : String := "usage: feishu-upload-image ..."

/-- Observable outcome of one process run: the lines written to standard
output, the lines written to standard error, and the exit status. -/
structure ProcOut where
  stdout : List String
  stderr : List String
  exitCode : Nat
deriving DecidableEq

/-- The tail of `main` after the upload attempt: success formatting
(`json` envelope / `--quiet` bare key / `image_key: ...` line, exit 0) and
the `except Exception` boundary (message on stderr, envelope on stdout only
for `json` output, exit 1). -/
def finishRun (a : Args) (res : Except Err String) : ProcOut :=
  match res with
  | .ok key =>
    { stdout := [if a.output = "json" then jsonSuccess key
                 else if a.quiet then key
                 else "image_key: " ++ key],
      stderr := [], exitCode := 0 }
  | .error e =>
    { stdout := if a.output = "json" then [jsonFailure (errStr e)] else [],
      stderr := ["Error: " ++ errStr e], exitCode := 1 }

/-- `main`: load credentials (`load_config` exits the process itself on
failure, printing its remediation lines on standard output), build the
uploader with an empty token cache, dispatch on the argument chain, and
finish through the success/error boundary.  The `--base64`-without-input
branch prints to stderr and exits via `sys.exit(1)`, which the
`except Exception` clause does not catch. -/
def mainRun (E : Env) (cfg : Option FeishuSection) (envId envSecret : Option String)
    (a : Args) : ProcOut :=
  match load_config cfg envId envSecret with
  | .error _ => { stdout := configErrorLines, stderr := [], exitCode := 1 }
  | .ok creds =>
    match route a with
    | .missingB64Input =>
      { stdout := [],
        stderr := ["Error: base64 string required when using --base64"], exitCode := 1 }
    | .noInput => { stdout := [helpText], stderr := [], exitCode := 1 }
    | .viaUrl u => finishRun a (upload_from_url E ⟨creds.1, creds.2⟩ u a.image_type none).1
    | .viaBase64 s => finishRun a (upload_from_base64 E ⟨creds.1, creds.2⟩ s a.image_type none).1
    | .viaFile p => finishRun a (upload_from_file E ⟨creds.1, creds.2⟩ p a.image_type none).1

/-- One literal `requests` call as written in the source: its HTTP method
and the value of its `timeout` keyword argument (`none` when the call
passes no `timeout` at all, in which case `requests` waits indefinitely). -/
structure RequestCall where
  method : String
  timeout : Option Nat

/-- `requests.post(url, json=payload)` in `get_access_token`: no `timeout`
keyword is passed. -/
def tokenFetchRequest : RequestCall := { method := "POST", timeout := none }

/-- `requests.get(url)` in `upload_from_url`: no `timeout` keyword is passed. -/
def urlFetchRequest : RequestCall := { method := "GET", timeout := none }

/-- `requests.post(url, headers=headers, files=files)` in
`upload_from_reader`: no `timeout` keyword is passed. -/
def uploadPostRequest : RequestCall := { method := "POST", timeout := none }

/-- Fixture builder: `4*n` copies of the character `A` (each quad of four
`A`s decodes to three zero bytes). -/
def fourA : Nat → List Char
  | 0 => []
  | n + 1 => 'A' :: 'A' :: 'A' :: 'A' :: fourA n

/-- A base64 fixture decoding to exactly 10485760 zero bytes
(`3 * 3495253 + 1`). -/
def b64Fixture10MiB : String := String.mk (fourA 3495253 ++ ['A', 'A', '=', '='])

/-- A base64 fixture decoding to exactly 10485761 zero bytes
(`3 * 3495253 + 2`). -/
def b64Fixture10MiBPlus1 : String := String.mk (fourA 3495253 ++ ['A', 'A', 'A', '='])

/-- Whether a character belongs to the standard base64 alphabet. -/
def isBase64Alphabet (c : Char) : Bool := (b64Val c).isSome

/-- Number of trailing pad characters of a character list. -/
def trailingPads (cs : List Char) : Nat := (cs.reverse.takeWhile (fun c => c == '=')).length

/-- Modelled from the spec: "valid encoded payload" — strict base64 text:
length a multiple of four, at most two trailing pads, and every other
character in the base64 alphabet.  Used only to exhibit payloads that are
not valid yet decode without error. -/
def isValidBase64 (s : String) : Bool :=
  let cs := s.data
  let p := trailingPads cs
  (cs.length % 4 == 0) && decide (p ≤ 2) &&
    (cs.take (cs.length - p)).all isBase64Alphabet

/-- A benign external world for concrete runs: auth succeeds with token
"tok", every URL serves an empty 200 body, upload succeeds with key
"img_abc123", and no local file exists. -/
def testEnv : Env :=
  { anet := fun _ => { code := some 0, msg := some "ok", app_access_token := some "tok" },
    urlNet := fun _ => (200, []),
    uresp := { code := some 0, msg := some "ok", data := some { image_key := some "img_abc123" } },
    fs := fun _ => none }

/-- An external world whose upload endpoint rejects with business code 1
and message "forbidden". -/
def errEnv : Env :=
  { anet := fun _ => { code := some 0, msg := some "ok", app_access_token := some "tok" },
    urlNet := fun _ => (200, []),
    uresp := { code := some 1, msg := some "forbidden", data := none },
    fs := fun _ => none }

/-- An external world whose auth and upload responses both lack the `code`
field entirely. -/
def noCodeEnv : Env :=
  { anet := fun _ => { code := none, msg := some "m", app_access_token := none },
    urlNet := fun _ => (200, []),
    uresp := { code := none, msg := none, data := none },
    fs := fun _ => none }

/-- An external world holding the two size fixtures as local files and as
remote URLs. -/
def sizeEnv : Env :=
  { anet := fun _ => { code := some 0, msg := some "ok", app_access_token := some "tok" },
    urlNet := fun u =>
      if u = "http://h/ok.png" then (200, List.replicate 10485760 0)
      else (200, List.replicate 10485761 0),
    uresp := { code := some 0, msg := some "ok", data := some { image_key := some "img_key" } },
    fs := fun p =>
      if p = "ok.png" then some (List.replicate 10485760 0)
      else if p = "big.png" then some (List.replicate 10485761 0)
      else none }

/-- An external world in which every file and every URL resolves to an
oversized (10 MiB + 1) buffer. -/
def bigEnv : Env :=
  { anet := fun _ => { code := some 0, msg := some "ok", app_access_token := some "tok" },
    urlNet := fun _ => (200, List.replicate 10485761 0),
    uresp := { code := some 0, msg := some "ok", data := some { image_key := some "k" } },
    fs := fun _ => some (List.replicate 10485761 0) }

/-! Helper lemmas about the embedded functions. -/

theorem get_token_cached (E : Env) (creds : Credentials) (t : String) (h : t ≠ "") :
    get_access_token E creds (some t) = (.ok (some t), some t, []) := by
  simp [get_access_token, pyTruthy, h]

theorem get_token_fresh (E : Env) (creds : Credentials)
    (hc : (E.anet creds).code = some 0) :
    get_access_token E creds none =
      (.ok (E.anet creds).app_access_token, (E.anet creds).app_access_token,
        [.authPost creds]) := by
  simp [get_access_token, pyTruthy, hc]

theorem get_token_fail (E : Env) (creds : Credentials)
    (hc : (E.anet creds).code ≠ some 0) :
    get_access_token E creds none =
      (.error (.authError ("Failed to get access token: " ++ pyShow (E.anet creds).msg)),
        none, [.authPost creds]) := by
  simp [get_access_token, pyTruthy, hc]

theorem reader_size_fail (E : Env) (creds : Credentials) (buf : List Nat)
    (imt : String) (tok : Option String) (h : SIZE_LIMIT < buf.length) :
    upload_from_reader E creds buf imt tok = (.error .sizeLimitExceeded, tok, []) := by
  simp [upload_from_reader, h]

theorem reader_ok (E : Env) (creds : Credentials) (buf : List Nat) (imt : String)
    (tok tv st : Option String) (ev : List NetCall) (d : UploadData) (k : String)
    (hsz : ¬ SIZE_LIMIT < buf.length)
    (htok : get_access_token E creds tok = (.ok tv, st, ev))
    (hc : E.uresp.code = some 0) (hd : E.uresp.data = some d)
    (hk : d.image_key = some k) :
    upload_from_reader E creds buf imt tok = (.ok k, st, ev ++ [.uploadPost]) := by
  simp [upload_from_reader, hsz, htok, hc, hd, hk]

theorem reader_upload_fail (E : Env) (creds : Credentials) (buf : List Nat)
    (imt : String) (tok tv st : Option String) (ev : List NetCall)
    (hsz : ¬ SIZE_LIMIT < buf.length)
    (htok : get_access_token E creds tok = (.ok tv, st, ev))
    (hne : E.uresp.code ≠ some 0) :
    upload_from_reader E creds buf imt tok =
      (.error (.uploadError ("Upload failed: " ++ pyShow E.uresp.msg)), st,
        ev ++ [.uploadPost]) := by
  simp [upload_from_reader, hsz, htok, hne]

theorem file_found (E : Env) (creds : Credentials) (p : String) (imt : String)
    (tok : Option String) (buf : List Nat) (hp : E.fs p = some buf) :
    upload_from_file E creds p imt tok = upload_from_reader E creds buf imt tok := by
  unfold upload_from_file
  rw [hp]

theorem file_missing (E : Env) (creds : Credentials) (p : String) (imt : String)
    (tok : Option String) (hp : E.fs p = none) :
    upload_from_file E creds p imt tok = (.error (.fileNotFound p), tok, []) := by
  unfold upload_from_file
  rw [hp]

theorem url_pass (E : Env) (creds : Credentials) (u : String) (imt : String)
    (tok : Option String) (hst : ¬(400 ≤ (E.urlNet u).1 ∧ (E.urlNet u).1 < 600)) :
    upload_from_url E creds u imt tok
      = ((upload_from_reader E creds (E.urlNet u).2 imt tok).1,
         (upload_from_reader E creds (E.urlNet u).2 imt tok).2.1,
         .getUrl u :: (upload_from_reader E creds (E.urlNet u).2 imt tok).2.2) := by
  unfold upload_from_url
  rw [if_neg hst]

theorem url_http_fail (E : Env) (creds : Credentials) (u : String) (imt : String)
    (tok : Option String) (hst : 400 ≤ (E.urlNet u).1 ∧ (E.urlNet u).1 < 600) :
    upload_from_url E creds u imt tok
      = (.error (.httpError (E.urlNet u).1 u), tok, [.getUrl u]) := by
  unfold upload_from_url
  rw [if_pos hst]

theorem b64_ok (E : Env) (creds : Credentials) (s : String) (imt : String)
    (tok : Option String) (buf : List Nat) (hs : b64decode s = .ok buf) :
    upload_from_base64 E creds s imt tok = upload_from_reader E creds buf imt tok := by
  unfold upload_from_base64
  rw [hs]

theorem b64_fail (E : Env) (creds : Credentials) (s : String) (imt : String)
    (tok : Option String) (m : String) (hs : b64decode s = .error m) :
    upload_from_base64 E creds s imt tok = (.error (.decodeError m), tok, []) := by
  unfold upload_from_base64
  rw [hs]

theorem a2b_all_invalid (cs : List Char) :
    ∀ (lc pads nD : Nat) (acc : List Nat), (∀ c ∈ cs, b64Val c = none) →
      a2b cs 0 lc pads nD acc = .ok acc.reverse := by
  induction cs with
  | nil => intro lc pads nD acc _; rfl
  | cons c rest ih =>
    intro lc pads nD acc h
    by_cases hpad : c = '='
    · rw [show a2b (c :: rest) 0 lc pads nD acc
          = if c = '=' then a2b rest 0 lc pads nD acc else
              (match b64Val c with
               | none => a2b rest 0 lc pads nD acc
               | some v => a2b rest 1 v 0 (nD + 1) acc) from rfl]
      rw [if_pos hpad]
      exact ih lc pads nD acc (fun x hx => h x (List.mem_cons_of_mem c hx))
    · rw [show a2b (c :: rest) 0 lc pads nD acc
          = if c = '=' then a2b rest 0 lc pads nD acc else
              (match b64Val c with
               | none => a2b rest 0 lc pads nD acc
               | some v => a2b rest 1 v 0 (nD + 1) acc) from rfl]
      rw [if_neg hpad, h c (List.mem_cons_self c rest)]
      exact ih lc pads nD acc (fun x hx => h x (List.mem_cons_of_mem c hx))

theorem a2b_fourA (n : Nat) : ∀ (m : Nat) (rest : List Char) (acc : List Nat),
    a2b (fourA n ++ rest) 0 0 0 m acc
      = a2b rest 0 0 0 (m + 4 * n) (List.replicate (3 * n) 0 ++ acc) := by
  induction n with
  | zero => intro m rest acc; simp [fourA]
  | succ k ih =>
    intro m rest acc
    have step : a2b (fourA (k + 1) ++ rest) 0 0 0 m acc
        = a2b (fourA k ++ rest) 0 0 0 (m + 1 + 1 + 1 + 1) (0 :: 0 :: 0 :: acc) := rfl
    rw [step, ih]
    have hm : m + 1 + 1 + 1 + 1 + 4 * k = m + 4 * (k + 1) := by ring
    have hl : List.replicate (3 * (k + 1)) 0 ++ acc
        = List.replicate (3 * k) 0 ++ (0 :: 0 :: 0 :: acc) := by
      rw [show 3 * (k + 1) = 3 * k + 3 by ring, List.replicate_add]
      simp
    rw [hm, hl]

theorem a2b_tail_two_pads (m : Nat) (acc : List Nat) :
    a2b ['A', 'A', '=', '='] 0 0 0 m acc = .ok ((0 :: acc).reverse) := rfl

theorem a2b_tail_one_pad (m : Nat) (acc : List Nat) :
    a2b ['A', 'A', 'A', '='] 0 0 0 m acc = .ok ((0 :: 0 :: acc).reverse) := rfl

theorem fourA_ascii (n : Nat) : (fourA n).all (fun c => c.toNat < 128) = true := by
  induction n with
  | zero => rfl
  | succ k ih => simp [fourA, ih]

theorem b64Fixture10MiB_decode :
    b64decode b64Fixture10MiB = .ok (List.replicate 10485760 0) := by
  have hdata : b64Fixture10MiB.data = fourA 3495253 ++ ['A', 'A', '=', '='] := rfl
  have hascii : (b64Fixture10MiB.data.all (fun c => c.toNat < 128)) = true := by
    rw [hdata, List.all_append, fourA_ascii]
    rfl
  have hstep : b64decode b64Fixture10MiB = a2b b64Fixture10MiB.data 0 0 0 0 [] := by
    unfold b64decode
    rw [hascii]
    exact if_pos rfl
  rw [hstep, hdata, a2b_fourA, a2b_tail_two_pads, List.append_nil]
  have h1 : (0 : Nat) :: List.replicate (3 * 3495253) 0 = List.replicate 10485760 0 := by
    rw [← List.replicate_succ]
  rw [h1, List.reverse_replicate]

theorem b64Fixture10MiBPlus1_decode :
    b64decode b64Fixture10MiBPlus1 = .ok (List.replicate 10485761 0) := by
  have hdata : b64Fixture10MiBPlus1.data = fourA 3495253 ++ ['A', 'A', 'A', '='] := rfl
  have hascii : (b64Fixture10MiBPlus1.data.all (fun c => c.toNat < 128)) = true := by
    rw [hdata, List.all_append, fourA_ascii]
    rfl
  have hstep : b64decode b64Fixture10MiBPlus1 = a2b b64Fixture10MiBPlus1.data 0 0 0 0 [] := by
    unfold b64decode
    rw [hascii]
    exact if_pos rfl
  rw [hstep, hdata, a2b_fourA, a2b_tail_one_pad, List.append_nil]
  have h1 : (0 : Nat) :: (0 : Nat) :: List.replicate (3 * 3495253) 0
      = List.replicate 10485761 0 := by
    rw [← List.replicate_succ, ← List.replicate_succ]
  rw [h1, List.reverse_replicate]

/-! Claim theorems. -/

/-- C1: one auth network call per process.  When the auth endpoint answers
the credentials with code 0 and a non-empty token `t`, the first
`get_access_token` call (empty cache) issues exactly one `authPost` and
stores `t`; a second call on the stored cache returns the same token
unchanged and issues no network call, so the combined trace of the two
calls holds exactly one auth POST. -/
theorem token_manager_single_auth_call (E : Env) (creds : Credentials) (t : String)
    (hc : (E.anet creds).code = some 0)
    (ht : (E.anet creds).app_access_token = some t)
    (hne : t ≠ "") :
    get_access_token E creds none = (.ok (some t), some t, [.authPost creds]) ∧
    get_access_token E creds (some t) = (.ok (some t), some t, []) ∧
    (get_access_token E creds none).2.2 ++ (get_access_token E creds (some t)).2.2
      = [.authPost creds] := by
  have h1 := get_token_fresh E creds hc
  rw [ht] at h1
  have h2 := get_token_cached E creds t hne
  refine ⟨h1, h2, ?_⟩
  rw [h1, h2]
  rfl

/-- Witness for C1 at a concrete environment and concrete credentials. -/
theorem token_manager_single_auth_call_witness :
    get_access_token testEnv ⟨"id", "sec"⟩ none
      = (.ok (some "tok"), some "tok", [.authPost ⟨"id", "sec"⟩]) ∧
    get_access_token testEnv ⟨"id", "sec"⟩ (some "tok")
      = (.ok (some "tok"), some "tok", []) ∧
    (get_access_token testEnv ⟨"id", "sec"⟩ none).2.2 ++
      (get_access_token testEnv ⟨"id", "sec"⟩ (some "tok")).2.2
      = [.authPost ⟨"id", "sec"⟩] :=
  token_manager_single_auth_call testEnv ⟨"id", "sec"⟩ "tok" rfl rfl (by decide)

/-- C2: the 10 MiB boundary is inclusive for every `ImageSource` variant.
In an environment where auth and upload succeed, a local file, a remote
URL, and an inline base64 payload that each resolve to exactly 10485760
bytes all upload successfully, while the same three variants at 10485761
bytes all fail with the size-limit error. -/
theorem size_boundary_inclusive (E : Env) (creds : Credentials)
    (ha : (E.anet creds).code = some 0)
    (hc : E.uresp.code = some 0)
    (hd : E.uresp.data = some ⟨some "img_key"⟩)
    (hf1 : E.fs "ok.png" = some (List.replicate 10485760 0))
    (hf2 : E.fs "big.png" = some (List.replicate 10485761 0))
    (hu1s : (E.urlNet "http://h/ok.png").1 = 200)
    (hu1b : (E.urlNet "http://h/ok.png").2 = List.replicate 10485760 0)
    (hu2s : (E.urlNet "http://h/big.png").1 = 200)
    (hu2b : (E.urlNet "http://h/big.png").2 = List.replicate 10485761 0) :
    (upload_from_file E creds "ok.png" "message" none).1 = .ok "img_key" ∧
    (upload_from_file E creds "big.png" "message" none).1 = .error .sizeLimitExceeded ∧
    (upload_from_url E creds "http://h/ok.png" "message" none).1 = .ok "img_key" ∧
    (upload_from_url E creds "http://h/big.png" "message" none).1 = .error .sizeLimitExceeded ∧
    (upload_from_base64 E creds b64Fixture10MiB "message" none).1 = .ok "img_key" ∧
    (upload_from_base64 E creds b64Fixture10MiBPlus1 "message" none).1
      = .error .sizeLimitExceeded := by
  have hsz_ok : ¬ SIZE_LIMIT < (List.replicate 10485760 (0 : Nat)).length := by
    rw [List.length_replicate]; decide
  have hsz_big : SIZE_LIMIT < (List.replicate 10485761 (0 : Nat)).length := by
    rw [List.length_replicate]; decide
  have htok := get_token_fresh E creds ha
  have rok := reader_ok E creds (List.replicate 10485760 0) "message" none
    (E.anet creds).app_access_token (E.anet creds).app_access_token
    [.authPost creds] ⟨some "img_key"⟩ "img_key" hsz_ok htok hc hd rfl
  have rbig := reader_size_fail E creds (List.replicate 10485761 0) "message" none hsz_big
  have hst1 : ¬(400 ≤ (E.urlNet "http://h/ok.png").1 ∧ (E.urlNet "http://h/ok.png").1 < 600) := by
    rw [hu1s]; decide
  have hst2 : ¬(400 ≤ (E.urlNet "http://h/big.png").1 ∧ (E.urlNet "http://h/big.png").1 < 600) := by
    rw [hu2s]; decide
  refine ⟨?_, ?_, ?_, ?_, ?_, ?_⟩
  · rw [file_found E creds "ok.png" "message" none _ hf1, rok]
  · rw [file_found E creds "big.png" "message" none _ hf2, rbig]
  · rw [url_pass E creds "http://h/ok.png" "message" none hst1]
    show (upload_from_reader E creds (E.urlNet "http://h/ok.png").2 "message" none).1
      = Except.ok "img_key"
    rw [hu1b, rok]
  · rw [url_pass E creds "http://h/big.png" "message" none hst2]
    show (upload_from_reader E creds (E.urlNet "http://h/big.png").2 "message" none).1
      = Except.error Err.sizeLimitExceeded
    rw [hu2b, rbig]
  · rw [b64_ok E creds b64Fixture10MiB "message" none _ b64Fixture10MiB_decode, rok]
  · rw [b64_ok E creds b64Fixture10MiBPlus1 "message" none _ b64Fixture10MiBPlus1_decode, rbig]

/-- Witness for C2 at a concrete environment and concrete credentials. -/
theorem size_boundary_inclusive_witness :
    (upload_from_file sizeEnv ⟨"id", "sec"⟩ "ok.png" "message" none).1 = .ok "img_key" ∧
    (upload_from_file sizeEnv ⟨"id", "sec"⟩ "big.png" "message" none).1
      = .error .sizeLimitExceeded ∧
    (upload_from_url sizeEnv ⟨"id", "sec"⟩ "http://h/ok.png" "message" none).1
      = .ok "img_key" ∧
    (upload_from_url sizeEnv ⟨"id", "sec"⟩ "http://h/big.png" "message" none).1
      = .error .sizeLimitExceeded ∧
    (upload_from_base64 sizeEnv ⟨"id", "sec"⟩ b64Fixture10MiB "message" none).1
      = .ok "img_key" ∧
    (upload_from_base64 sizeEnv ⟨"id", "sec"⟩ b64Fixture10MiBPlus1 "message" none).1
      = .error .sizeLimitExceeded :=
  size_boundary_inclusive sizeEnv ⟨"id", "sec"⟩ rfl rfl rfl rfl rfl rfl rfl rfl rfl

/-- C7: the size check precedes every network call: an oversized buffer
makes `upload_from_reader` return with an empty network trace, and through
each of the three entry points the trace of an invocation whose resolved
buffer is oversized never holds the upload POST. -/
theorem oversized_never_uploaded (E : Env) (creds : Credentials) (imt : String)
    (tok : Option String) (buf : List Nat) (hsz : SIZE_LIMIT < buf.length) :
    (upload_from_reader E creds buf imt tok).2.2 = [] ∧
    (∀ p, E.fs p = some buf →
      NetCall.uploadPost ∉ (upload_from_file E creds p imt tok).2.2) ∧
    (∀ u, (E.urlNet u).2 = buf →
      NetCall.uploadPost ∉ (upload_from_url E creds u imt tok).2.2) ∧
    (∀ s, b64decode s = .ok buf →
      NetCall.uploadPost ∉ (upload_from_base64 E creds s imt tok).2.2) := by
  have hr := reader_size_fail E creds buf imt tok hsz
  refine ⟨by rw [hr], ?_, ?_, ?_⟩
  · intro p hp
    rw [file_found E creds p imt tok buf hp, hr]
    simp
  · intro u hu
    by_cases hst : 400 ≤ (E.urlNet u).1 ∧ (E.urlNet u).1 < 600
    · rw [url_http_fail E creds u imt tok hst]
      simp
    · rw [url_pass E creds u imt tok hst]
      show NetCall.uploadPost ∉
        NetCall.getUrl u :: (upload_from_reader E creds (E.urlNet u).2 imt tok).2.2
      rw [hu, hr]
      simp
  · intro s hs
    rw [b64_ok E creds s imt tok buf hs, hr]
    simp

/-- Witness for C7 at a concrete oversized buffer (10485761 bytes) through
all entry points. -/
theorem oversized_never_uploaded_witness :
    SIZE_LIMIT < (List.replicate 10485761 (0 : Nat)).length ∧
    (upload_from_reader bigEnv ⟨"id", "sec"⟩ (List.replicate 10485761 0)
      "message" none).2.2 = [] ∧
    NetCall.uploadPost ∉ (upload_from_file bigEnv ⟨"id", "sec"⟩ "p.png"
      "message" none).2.2 ∧
    NetCall.uploadPost ∉ (upload_from_url bigEnv ⟨"id", "sec"⟩ "http://h/x"
      "message" none).2.2 ∧
    NetCall.uploadPost ∉ (upload_from_base64 bigEnv ⟨"id", "sec"⟩
      b64Fixture10MiBPlus1 "message" none).2.2 := by
  have hsz : SIZE_LIMIT < (List.replicate 10485761 (0 : Nat)).length := by
    rw [List.length_replicate]; decide
  have h := oversized_never_uploaded bigEnv ⟨"id", "sec"⟩ "message" none
    (List.replicate 10485761 0) hsz
  exact ⟨hsz, h.1, h.2.1 "p.png" rfl, h.2.2.1 "http://h/x" rfl,
    h.2.2.2 _ b64Fixture10MiBPlus1_decode⟩

/-- C3 counterexample: the inline payload "!!!" is not a valid base64
payload, yet `base64.b64decode` returns an empty byte buffer with no error
(non-alphabet characters are discarded before decoding), contradicting the
claim that every malformed inline payload yields `DecodeError` and never a
silent empty buffer. -/
theorem inline_decode_counterexample :
    isValidBase64 "!!!" = false ∧ b64decode "!!!" = .ok [] := by
  constructor
  · decide
  · rfl

/-- C3 amended: resolving a malformed inline payload never yields a silent
crash, but not every malformed payload yields `DecodeError`: a payload
consisting only of ASCII characters outside the base64 alphabet decodes
silently to the empty byte buffer, while a payload whose surviving data
characters end mid-quad (such as "abc") does yield the decode error. -/
theorem inline_decode_amended :
    (∀ (s : String), (∀ c ∈ s.data, b64Val c = none ∧ c.toNat < 128) →
      b64decode s = .ok []) ∧
    b64decode "abc" = .error "Incorrect padding" := by
  constructor
  · intro s h
    have hascii : (s.data.all (fun c => c.toNat < 128)) = true := by
      rw [List.all_eq_true]
      intro c hc
      exact decide_eq_true (h c hc).2
    have hstep : b64decode s = a2b s.data 0 0 0 0 [] := by
      unfold b64decode
      rw [hascii]
      exact if_pos rfl
    rw [hstep, a2b_all_invalid s.data 0 0 0 [] (fun c hc => (h c hc).1)]
    rfl
  · rfl

/-- Witness for the amended C3 at the concrete payload "????". -/
theorem inline_decode_amended_witness :
    (∀ c ∈ ("????" : String).data, b64Val c = none ∧ c.toNat < 128) ∧
    b64decode "????" = .ok [] := by
  have h : ∀ c ∈ ("????" : String).data, b64Val c = none ∧ c.toNat < 128 := by decide
  exact ⟨h, inline_decode_amended.1 "????" h⟩

/-- C4: with no explicit variant flag (`--url` unset, `--base64` unset) and
a non-empty positional input `s`, the dispatch selects the remote-URL path
exactly when `s` begins with "http://" or "https://" and the local-file
path otherwise; and the inline-data path is ever selected only when the
`--base64` flag is set. -/
theorem untagged_input_classification :
    (∀ (a : Args) (s : String), a.url = none → a.base64 = false → a.input = some s →
      s ≠ "" →
      ((startswith s "http://" || startswith s "https://") = true → route a = .viaUrl s) ∧
      ((startswith s "http://" || startswith s "https://") = false → route a = .viaFile s)) ∧
    (∀ (a : Args) (s : String), route a = .viaBase64 s → a.base64 = true) := by
  constructor
  · intro a s hu hb hi hne
    have htr : pyTruthy (some s) = true := by simp [pyTruthy, hne]
    constructor
    · intro hs
      simp [route, hu, hb, hi, pyTruthy, hne, hs]
    · intro hs
      simp [route, hu, hb, hi, pyTruthy, hne, hs]
  · intro a s h
    unfold route at h
    split_ifs at h
    all_goals simp_all

/-- Witness for C4 at the spec's two example inputs. -/
theorem untagged_input_classification_witness :
    route { input := some "https://example.com/pic.png", url := none, base64 := false,
            image_type := "message", output := "key", quiet := false }
      = .viaUrl "https://example.com/pic.png" ∧
    route { input := some "/tmp/pic.png", url := none, base64 := false,
            image_type := "message", output := "key", quiet := false }
      = .viaFile "/tmp/pic.png" := by
  constructor
  · exact (untagged_input_classification.1 _ "https://example.com/pic.png"
      rfl rfl rfl (by decide)).1 (by decide)
  · exact (untagged_input_classification.1 _ "/tmp/pic.png"
      rfl rfl rfl (by decide)).2 (by decide)

/-- C5: response parsing of the upload call.  With the size check passed
and a cached token, a response whose `code` field is 0 yields the
`image_key` extracted from the nested `data.image_key` path, and a response
whose `code` field is a non-zero value yields the upload error carrying the
server message and no image key. -/
theorem upload_response_parsing :
    (∀ (E : Env) (creds : Credentials) (imt : String) (buf : List Nat) (t : String)
      (d : UploadData) (k : String),
      ¬ SIZE_LIMIT < buf.length → t ≠ "" →
      E.uresp.code = some 0 → E.uresp.data = some d → d.image_key = some k →
      (upload_from_reader E creds buf imt (some t)).1 = .ok k) ∧
    (∀ (E : Env) (creds : Credentials) (imt : String) (buf : List Nat) (t : String)
      (c : Int),
      ¬ SIZE_LIMIT < buf.length → t ≠ "" →
      E.uresp.code = some c → c ≠ 0 →
      (upload_from_reader E creds buf imt (some t)).1 =
        .error (.uploadError ("Upload failed: " ++ pyShow E.uresp.msg))) := by
  constructor
  · intro E creds imt buf t d k hsz ht hc hd hk
    rw [reader_ok E creds buf imt (some t) (some t) (some t) [] d k hsz
      (get_token_cached E creds t ht) hc hd hk]
  · intro E creds imt buf t c hsz ht hc hcne
    have hne : E.uresp.code ≠ some 0 := by
      rw [hc]
      simp [hcne]
    rw [reader_upload_fail E creds buf imt (some t) (some t) (some t) [] hsz
      (get_token_cached E creds t ht) hne]

/-- Witness for C5: the spec's example response `{code: 0, msg: "ok",
data: {image_key: "img_abc123"}}` yields "img_abc123", and a `{code: 1,
msg: "forbidden"}` response yields the upload error with that message. -/
theorem upload_response_parsing_witness :
    (¬ SIZE_LIMIT < ([1, 2, 3] : List Nat).length) ∧
    (upload_from_reader testEnv ⟨"id", "sec"⟩ [1, 2, 3] "message" (some "tok")).1
      = .ok "img_abc123" ∧
    (upload_from_reader errEnv ⟨"id", "sec"⟩ [1, 2, 3] "message" (some "tok")).1
      = .error (.uploadError ("Upload failed: " ++ pyShow errEnv.uresp.msg)) := by
  have hsz : ¬ SIZE_LIMIT < ([1, 2, 3] : List Nat).length := by decide
  exact ⟨hsz,
    upload_response_parsing.1 testEnv ⟨"id", "sec"⟩ "message" [1, 2, 3] "tok"
      ⟨some "img_abc123"⟩ "img_abc123" hsz (by decide) rfl rfl rfl,
    upload_response_parsing.2 errEnv ⟨"id", "sec"⟩ "message" [1, 2, 3] "tok"
      1 hsz (by decide) rfl (by decide)⟩

/-- C10: a JSON response that lacks the `code` field entirely is treated as
a failure by both the token fetch and the upload (`data.get("code")` is
absent and compares unequal to 0), never as success. -/
theorem missing_code_field_rejected :
    (∀ (E : Env) (creds : Credentials), (E.anet creds).code = none →
      (get_access_token E creds none).1 =
        .error (.authError ("Failed to get access token: " ++ pyShow (E.anet creds).msg))) ∧
    (∀ (E : Env) (creds : Credentials) (imt : String) (buf : List Nat) (t : String),
      ¬ SIZE_LIMIT < buf.length → t ≠ "" → E.uresp.code = none →
      (upload_from_reader E creds buf imt (some t)).1 =
        .error (.uploadError ("Upload failed: " ++ pyShow E.uresp.msg))) := by
  constructor
  · intro E creds hc
    have hne : (E.anet creds).code ≠ some 0 := by
      rw [hc]
      simp
    rw [get_token_fail E creds hne]
  · intro E creds imt buf t hsz ht hc
    have hne : E.uresp.code ≠ some 0 := by
      rw [hc]
      simp
    rw [reader_upload_fail E creds buf imt (some t) (some t) (some t) [] hsz
      (get_token_cached E creds t ht) hne]

/-- Witness for C10 at an environment whose responses lack `code`. -/
theorem missing_code_field_rejected_witness :
    (get_access_token noCodeEnv ⟨"id", "sec"⟩ none).1 =
      .error (.authError ("Failed to get access token: " ++ pyShow (noCodeEnv.anet ⟨"id", "sec"⟩).msg)) ∧
    (upload_from_reader noCodeEnv ⟨"id", "sec"⟩ [] "message" (some "tok")).1 =
      .error (.uploadError ("Upload failed: " ++ pyShow noCodeEnv.uresp.msg)) := by
  exact ⟨missing_code_field_rejected.1 noCodeEnv ⟨"id", "sec"⟩ rfl,
    missing_code_field_rejected.2 noCodeEnv ⟨"id", "sec"⟩ "message" [] "tok"
      (by decide) (by decide) rfl⟩

theorem load_env_error_iff (e1 e2 : Option String) :
    load_env e1 e2 = .error () ↔ (pyTruthy e1 = false ∨ pyTruthy e2 = false) := by
  cases h1 : pyTruthy e1
  all_goals cases h2 : pyTruthy e2
  all_goals simp [load_env, h1, h2]

theorem load_config_env (cfg : Option FeishuSection) (e1 e2 : Option String)
    (hc : cfgTruthy cfg = false) : load_config cfg e1 e2 = load_env e1 e2 := by
  cases cfg with
  | none => rfl
  | some sec =>
    have hc' : (pyTruthy sec.app_id && pyTruthy sec.app_secret) = false := hc
    simp [load_config, hc']

/-- C8 counterexample: with `channels.feishu` holding `app_id: ""` and
`app_secret: "secret"` — both keys present in the mapping — and both
environment variables set, `load_config` returns the environment pair, not
the config-file pair, because the empty string is falsy in the
`if app_id and app_secret:` test. -/
theorem credential_layering_counterexample :
    load_config (some ⟨some "", some "secret"⟩) (some "env_id") (some "env_secret")
      = .ok ("env_id", "env_secret") ∧
    ("env_id", "env_secret") ≠ ("", "secret") := by
  constructor
  · rfl
  · decide

/-- C8 amended: `load_config` returns the config-file pair when both
`channels.feishu` values are present and non-empty; otherwise it returns
the environment pair when both environment variables are set and
non-empty; and it fails (printing remediation and exiting) exactly when
neither layer yields two truthy values. -/
theorem credential_layering_amended (cfg : Option FeishuSection) (e1 e2 : Option String) :
    (∀ sec, cfg = some sec → pyTruthy sec.app_id = true → pyTruthy sec.app_secret = true →
      load_config cfg e1 e2 = .ok (sec.app_id.getD "", sec.app_secret.getD "")) ∧
    (cfgTruthy cfg = false → pyTruthy e1 = true → pyTruthy e2 = true →
      load_config cfg e1 e2 = .ok (e1.getD "", e2.getD "")) ∧
    (load_config cfg e1 e2 = .error () ↔
      (cfgTruthy cfg = false ∧ (pyTruthy e1 = false ∨ pyTruthy e2 = false))) := by
  refine ⟨?_, ?_, ?_⟩
  · intro sec hcfg h1 h2
    subst hcfg
    simp [load_config, h1, h2]
  · intro hc h1 h2
    rw [load_config_env cfg e1 e2 hc]
    simp [load_env, h1, h2]
  · constructor
    · intro h
      cases hcf : cfgTruthy cfg with
      | true =>
        exfalso
        cases cfg with
        | none => simp [cfgTruthy] at hcf
        | some sec =>
          have hc' : (pyTruthy sec.app_id && pyTruthy sec.app_secret) = true := hcf
          simp [load_config, hc'] at h
      | false =>
        rw [load_config_env cfg e1 e2 hcf] at h
        exact ⟨rfl, (load_env_error_iff e1 e2).1 h⟩
    · intro h
      rw [load_config_env cfg e1 e2 h.1]
      exact (load_env_error_iff e1 e2).2 h.2

/-- Witness for the amended C8: a complete config file wins over the
environment; an empty-string config value falls through to the
environment. -/
theorem credential_layering_amended_witness :
    load_config (some ⟨some "cfg_id", some "cfg_secret"⟩) (some "env_id") (some "env_secret")
      = .ok ("cfg_id", "cfg_secret") ∧
    load_config (some ⟨some "", some "x"⟩) (some "env_id") (some "env_secret")
      = .ok ("env_id", "env_secret") :=
  ⟨(credential_layering_amended _ _ _).1 ⟨some "cfg_id", some "cfg_secret"⟩ rfl
      (by decide) (by decide),
   (credential_layering_amended _ _ _).2.1 (by decide) (by decide) (by decide)⟩

/-- C6 counterexample: with no config file and no environment variables, a
run that requested JSON output exits 1 but prints the failure (with its
remediation text) on standard output, writes nothing at all to the
diagnostic stream, and prints no `{code: -1}` envelope — contradicting the
claim that every taxonomy failure, including `ConfigError`, is reported on
stderr and accompanied by the JSON error envelope. -/
theorem error_boundary_counterexample :
    mainRun testEnv none none none
      { input := some "/tmp/pic.png", url := none, base64 := false,
        image_type := "message", output := "json", quiet := false }
      = { stdout := configErrorLines, stderr := [], exitCode := 1 } := by
  rfl

/-- C6 amended: a failure raised inside the upload pipeline is printed as
`Error: <message>` on stderr, also printed as the `{code: -1, msg}`
envelope on stdout exactly when JSON output was requested, with exit
status 1; a missing-credentials failure instead prints its remediation
lines on standard output (not stderr), prints no JSON envelope, and exits
1.  No failure path is silent. -/
theorem error_boundary_amended :
    (∀ (E : Env) (cfg : Option FeishuSection) (e1 e2 : Option String) (a : Args)
      (aid asec p : String) (e : Err),
      load_config cfg e1 e2 = .ok (aid, asec) → route a = .viaFile p →
      (upload_from_file E ⟨aid, asec⟩ p a.image_type none).1 = .error e →
      mainRun E cfg e1 e2 a =
        { stdout := if a.output = "json" then [jsonFailure (errStr e)] else [],
          stderr := ["Error: " ++ errStr e], exitCode := 1 }) ∧
    (∀ (E : Env) (cfg : Option FeishuSection) (e1 e2 : Option String) (a : Args)
      (aid asec u : String) (e : Err),
      load_config cfg e1 e2 = .ok (aid, asec) → route a = .viaUrl u →
      (upload_from_url E ⟨aid, asec⟩ u a.image_type none).1 = .error e →
      mainRun E cfg e1 e2 a =
        { stdout := if a.output = "json" then [jsonFailure (errStr e)] else [],
          stderr := ["Error: " ++ errStr e], exitCode := 1 }) ∧
    (∀ (E : Env) (cfg : Option FeishuSection) (e1 e2 : Option String) (a : Args)
      (aid asec s : String) (e : Err),
      load_config cfg e1 e2 = .ok (aid, asec) → route a = .viaBase64 s →
      (upload_from_base64 E ⟨aid, asec⟩ s a.image_type none).1 = .error e →
      mainRun E cfg e1 e2 a =
        { stdout := if a.output = "json" then [jsonFailure (errStr e)] else [],
          stderr := ["Error: " ++ errStr e], exitCode := 1 }) ∧
    (∀ (E : Env) (cfg : Option FeishuSection) (e1 e2 : Option String) (a : Args),
      load_config cfg e1 e2 = .error () →
      mainRun E cfg e1 e2 a =
        { stdout := configErrorLines, stderr := [], exitCode := 1 }) := by
  refine ⟨?_, ?_, ?_, ?_⟩
  · intro E cfg e1 e2 a aid asec p e hload hroute hup
    simp only [mainRun, hload, hroute, hup, finishRun]
  · intro E cfg e1 e2 a aid asec u e hload hroute hup
    simp only [mainRun, hload, hroute, hup, finishRun]
  · intro E cfg e1 e2 a aid asec s e hload hroute hup
    simp only [mainRun, hload, hroute, hup, finishRun]
  · intro E cfg e1 e2 a hload
    simp only [mainRun, hload]

/-- Witness for the amended C6: a missing local file with JSON output
produces the stderr line and the envelope; missing credentials produce the
stdout remediation lines. -/
theorem error_boundary_amended_witness :
    mainRun testEnv (some ⟨some "id", some "sec"⟩) none none
      { input := some "/tmp/pic.png", url := none, base64 := false,
        image_type := "message", output := "json", quiet := false }
      = { stdout := [jsonFailure (errStr (.fileNotFound "/tmp/pic.png"))],
          stderr := ["Error: " ++ errStr (.fileNotFound "/tmp/pic.png")],
          exitCode := 1 } ∧
    mainRun testEnv none none none
      { input := some "/tmp/pic.png", url := none, base64 := false,
        image_type := "message", output := "key", quiet := false }
      = { stdout := configErrorLines, stderr := [], exitCode := 1 } := by
  constructor
  · exact error_boundary_amended.1 testEnv (some ⟨some "id", some "sec"⟩) none none
      _ "id" "sec" "/tmp/pic.png" (.fileNotFound "/tmp/pic.png") rfl (by decide) rfl
  · exact error_boundary_amended.2.2.2 testEnv none none none _ rfl

/-- C9: contrary to the claim, no outbound request carries any timeout:
the `timeout` keyword argument is absent from all three `requests` call
sites (token fetch, remote-URL fetch, upload), so a call against a peer
that never responds blocks indefinitely. -/
theorem outbound_calls_have_no_timeout :
    tokenFetchRequest.timeout = none ∧ urlFetchRequest.timeout = none ∧
    uploadPostRequest.timeout = none :=
  ⟨rfl, rfl, rfl⟩

end FeishuUpload
